import Mathlib

/-!
Verification of the Cortex session state controller and recalibration
insight engine (frontend `App` component: `processFile`, `handleRefine`,
`toggleColumn`, `handleTargetChange`, `toggleDropdown`).

Modelling conventions for the shallow embedding:

* JavaScript numbers that flow through the insight computation are modelled
  as rationals (`ℚ`); a `NaN` produced by `parseFloat` on a missing value is
  modelled by `Option ℚ` with `none` playing the role of `NaN`.
* `Number.prototype.toFixed(1)` is modelled by `jsToFixed1`: per the
  ECMAScript algorithm the sign is split off first and the magnitude is
  rounded to the nearest tenth, ties picking the larger value, so the
  output string for a negative argument that rounds to zero is `"-0.0"`.
  Coercing such a string back to a number (as the `diff > 0` / `diff < 0`
  comparisons in `handleRefine` do) yields the signed decimal value, with
  `-0` equal to `0`; that value is `Fixed1.val`.
* Each React event handler is modelled as an atomic transition on the
  session state: the handler runs from invocation through the arrival of
  the network response (success or failure), with `loading` ending `false`
  on every path that passes the guard (the `finally` block).  `Date.now()`
  and `toLocaleTimeString` are passed in as the parameters `now` and `ts`.
* A handler that issues an outbound network request is paired with a
  `Bool` that is `true` exactly when `axios.post` was reached.
* Display-only report fields that the controller never reads
  (`rows`, `missing_before`, `feature_importance`, `health_data`,
  `preview_data`, and the `type`/`cardinality`/`missing_pct` entries of a
  column diagnostic) are omitted from the embedded data model.
-/

/-- One element of `analysis.column_diagnostics`; the controller reads only
`value` (the column identifier). `label` is carried for display. -/
structure ColumnDiagnostic where
  value : String
  label : String
deriving DecidableEq, Repr

/-- The `stats` part of a server response.  `accuracy` is the value
`parseFloat` extracts from the field, `none` when the field is absent or
unparseable (i.e. `parseFloat` would give `NaN`). -/
structure Stats where
  accuracy : Option ℚ
  target_used : String
deriving DecidableEq, Repr

/-- The `analysis` part of a server response. -/
structure Analysis where
  column_diagnostics : List ColumnDiagnostic
deriving DecidableEq, Repr

/-- A server response (`res.data`), stored wholesale as the report. -/
structure Response where
  stats : Stats
  analysis : Analysis
deriving DecidableEq, Repr

/-- One entry of the insight log, as built by `processFile` and
`handleRefine`.  `diff` is the `diff` field of the object literal: either
the sentinel `"INIT"` or a formatted percentage string. -/
structure InsightLogEntry where
  id : Nat
  trend : String
  diff : String
  timestamp : String
  message : String
deriving DecidableEq, Repr

/-- The `useState` variables of the `App` component.  `loading` is the
`busy` flag of the specification, `insights` the insight log,
`openDropdown` the single expanded auxiliary panel. -/
structure SessionState where
  loading : Bool
  report : Option Response
  file : Option String
  selectedCols : List String
  selectedTarget : Option String
  insights : List InsightLogEntry
  openDropdown : Option String
deriving DecidableEq, Repr

/-- The initial `useState` values: `loading=false`, `report=null`,
`file=null`, `selectedCols=[]`, `selectedTarget=null`, `insights=[]`,
`openDropdown=null`. -/
def initialState : SessionState :=
  { loading := false, report := none, file := none, selectedCols := [],
    selectedTarget := none, insights := [], openDropdown := none }

/-- A JavaScript string held in an `Option` is falsy when it is
`null`/`undefined` or empty; `!selectedTarget` in the `handleRefine` guard
tests exactly this. -/
def strFalsy : Option String → Bool
  | none => true
  | some s => s == ""

/-- The result of `toFixed(1)`: the ECMAScript algorithm emits a minus sign
when the argument is negative and then formats the rounded magnitude, so
`neg` records the sign character and `tenths` the magnitude in tenths. -/
structure Fixed1 where
  neg : Bool
  tenths : Nat
deriving DecidableEq, Repr

/-- `q.toFixed(1)` for a (finite) JavaScript number `q`: split off the
sign, then round `|q|` to the nearest tenth, ties to the larger value. -/
def jsToFixed1 (q : ℚ) : Fixed1 :=
  if q < 0 then { neg := true, tenths := (Int.floor (10 * (-q) + 1/2)).toNat }
  else { neg := false, tenths := (Int.floor (10 * q + 1/2)).toNat }

/-- The numeric value recovered when the `toFixed(1)` string is coerced
back to a number (`"-0.0"` coerces to `-0`, which compares equal to `0`). -/
def Fixed1.val (f : Fixed1) : ℚ :=
  if f.neg then -((f.tenths : ℚ) / 10) else (f.tenths : ℚ) / 10

/-- The text of the `toFixed(1)` string: optional minus sign, integer part,
dot, one digit. -/
def fixed1String (f : Fixed1) : String :=
  (if f.neg then "-" else "") ++ toString (f.tenths / 10) ++ "." ++ toString (f.tenths % 10)

/-- Message of the initial system log entry installed by `processFile`. -/
def baselineMessage : String :=
  "Neural baseline established. Data vectors initialized and healed."

/-- `dynamicMessage` for the `diff > 0` branch of `handleRefine`. -/
def optimizedMessage (prunedCount : Int) : String :=
  "Optimization successful. Pruning " ++ toString prunedCount ++
    " noisy vectors enhanced the focus on primary predictors."

/-- `dynamicMessage` for the `diff < 0` branch of `handleRefine`. -/
def degradedMessage : String :=
  "Intelligence degradation detected. Removing features has limited the model\x27s ability to map patterns in the data space."

/-- `dynamicMessage` for the final (stable) branch of `handleRefine`. -/
def stableMessage : String :=
  "Model weights recalculated. System remains stable with the current feature set."

/-- `trend` computed by `handleRefine`: the string `diff` is coerced back
to a number by `diff > 0` / `diff < 0`, i.e. the comparisons are on
`Fixed1.val`. -/
def refineTrend (d : Fixed1) : String :=
  if 0 < d.val then "OPTIMIZED" else if d.val < 0 then "DEGRADED" else "STABLE"

/-- The `diff` field of the new entry:
`diff > 0 ? "+" + diff + "%" : diff + "%"`. -/
def refineLabel (d : Fixed1) : String :=
  if 0 < d.val then "+" ++ fixed1String d ++ "%" else fixed1String d ++ "%"

/-- The `dynamicMessage` chain of `handleRefine`. -/
def refineMessage (d : Fixed1) (prunedCount : Int) : String :=
  if 0 < d.val then optimizedMessage prunedCount
  else if d.val < 0 then degradedMessage
  else stableMessage

/-- The insight entry synthesized in the success branch of `handleRefine`
from `prevAccuracy`, `newAccuracy = parseFloat(res.data.stats.accuracy)`
(`none` = `NaN`), `totalColsCount`, `activeColsCount`.  When `newAccuracy`
is `NaN`, `(NaN - prev).toFixed(1)` is the string `"NaN"`; both
`"NaN" > 0` and `"NaN" < 0` are false, so the trend is `"STABLE"`, the
message is the stable one and the label is `"NaN%"`. -/
def mkRefineEntry (prevAccuracy : ℚ) (newAccuracy : Option ℚ)
    (totalColsCount activeColsCount : Nat) (now : Nat) (ts : String) :
    InsightLogEntry :=
  let prunedCount : Int := (totalColsCount : Int) - (activeColsCount : Int)
  match newAccuracy with
  | none =>
      { id := now, trend := "STABLE", diff := "NaN%", timestamp := ts,
        message := stableMessage }
  | some newA =>
      let d := jsToFixed1 (newA - prevAccuracy)
      { id := now, trend := refineTrend d, diff := refineLabel d,
        timestamp := ts, message := refineMessage d prunedCount }

/-- `parseFloat(report?.stats?.accuracy || 0)`: a missing report or a
missing/falsy accuracy field is replaced by `0` before parsing. -/
def prevAccuracyOf (st : SessionState) : ℚ :=
  match st.report with
  | none => 0
  | some r =>
      match r.stats.accuracy with
      | none => 0
      | some a => a

/-- Success path of `processFile`: guard `if (!uploadedFile) return`, then
`setFile`, request, store report, default columns = all diagnostic values
except `stats.target_used`, target = `stats.target_used`, reset the log to
the single baseline entry with `trend: "STABLE"`, `diff: "INIT"`;
`finally` clears `loading`. -/
def processFileSuccess (st : SessionState) (uploadedFile : Option String)
    (resp : Response) (now : Nat) (ts : String) : SessionState :=
  match uploadedFile with
  | none => st
  | some f =>
      { st with
        file := some f
        loading := false
        report := some resp
        selectedCols :=
          (resp.analysis.column_diagnostics.map (fun c => c.value)).filter
            (fun c => c ≠ resp.stats.target_used)
        selectedTarget := some resp.stats.target_used
        insights := [{ id := now, trend := "STABLE", diff := "INIT",
                       timestamp := ts, message := baselineMessage }] }

/-- Failure path of `processFile`: `setFile(uploadedFile)` has already run
before the request; the `catch` only alerts and `finally` clears
`loading`, so the file reference is retained and nothing else changes. -/
def processFileFailure (st : SessionState) (uploadedFile : Option String) :
    SessionState :=
  match uploadedFile with
  | none => st
  | some f => { st with file := some f, loading := false }

/-- The client-side guard of `handleRefine`:
`if (!file || !selectedTarget) return`. -/
def refineRejected (st : SessionState) : Bool :=
  st.file.isNone || strFalsy st.selectedTarget

/-- Success path of `handleRefine`.  The returned `Bool` is `true` exactly
when the outbound request was issued.  Inside the `try` block
`report.analysis.column_diagnostics.length` is read without optional
chaining, so with a `null` report the success callback throws, the `catch`
swallows the error and `finally` clears `loading` — the log and report are
left untouched in that case. -/
def handleRefineSuccess (st : SessionState) (resp : Response) (now : Nat)
    (ts : String) : SessionState × Bool :=
  if refineRejected st then (st, false)
  else
    match st.report with
    | none => ({ st with loading := false }, true)
    | some r =>
        let entry := mkRefineEntry (prevAccuracyOf st) resp.stats.accuracy
          r.analysis.column_diagnostics.length st.selectedCols.length now ts
        ({ st with
            loading := false
            insights := (entry :: st.insights).take 5
            report := some resp }, true)

/-- Failure path of `handleRefine`: same guard; on transport failure the
`catch` alerts and `finally` clears `loading`; `report` and `insights` are
untouched. -/
def handleRefineFailure (st : SessionState) : SessionState × Bool :=
  if refineRejected st then (st, false)
  else ({ st with loading := false }, true)

/-- `toggleColumn(colValue)`: remove the identifier if present, append it
otherwise. -/
def toggleColumn (st : SessionState) (colValue : String) : SessionState :=
  { st with
    selectedCols :=
      if st.selectedCols.contains colValue then
        st.selectedCols.filter (fun c => c ≠ colValue)
      else st.selectedCols ++ [colValue] }

/-- `handleTargetChange(newTarget)`: set the target, remove it from the
selected columns, close the open dropdown.  There is no check that a
report is present. -/
def handleTargetChange (st : SessionState) (newTarget : String) :
    SessionState :=
  { st with
    selectedTarget := some newTarget
    selectedCols := st.selectedCols.filter (fun c => c ≠ newTarget)
    openDropdown := none }

/-- `toggleDropdown(name)`: close the panel if it is the open one,
otherwise open it (closing any other). -/
def toggleDropdownOp (st : SessionState) (name : String) : SessionState :=
  { st with
    openDropdown := if st.openDropdown = some name then none else some name }

/-- One user-visible operation on the session, with the outcome of any
network request it triggers baked in (`none` = transport failure). -/
inductive Op where
  | upload (file : Option String) (result : Option Response) (now : Nat) (ts : String)
  | refine (result : Option Response) (now : Nat) (ts : String)
  | toggleCol (c : String)
  | changeTarget (t : String)
  | dropdown (name : String)
deriving DecidableEq, Repr

/-- The transition function of the session state machine. -/
def step (st : SessionState) : Op → SessionState
  | .upload f (some resp) now ts => processFileSuccess st f resp now ts
  | .upload f none _ _ => processFileFailure st f
  | .refine (some resp) now ts => (handleRefineSuccess st resp now ts).1
  | .refine none _ _ => (handleRefineFailure st).1
  | .toggleCol c => toggleColumn st c
  | .changeTarget t => handleTargetChange st t
  | .dropdown n => toggleDropdownOp st n

/-- The state reached from the initial state by a sequence of operations. -/
def run (ops : List Op) : SessionState :=
  ops.foldl step initialState

/-- The mutual-exclusion invariant of the specification, as a decidable
check: the current target is not a member of the selected columns. -/
def targetOk (st : SessionState) : Bool :=
  match st.selectedTarget with
  | none => true
  | some t => !(decide (t ∈ st.selectedCols))

/-! ### Concrete fixtures used by witnesses and counterexamples -/

/-- A diagnostic for an `age` column. -/
def diagAge : ColumnDiagnostic := { value := "age", label := "Age" }

/-- A diagnostic for an `income` column. -/
def diagIncome : ColumnDiagnostic := { value := "income", label := "Income" }

/-- A diagnostic for a `height` column. -/
def diagHeight : ColumnDiagnostic := { value := "height", label := "Height" }

/-- A first analysis response: accuracy 82, predicted target `age`. -/
def respA : Response :=
  { stats := { accuracy := some 82, target_used := "age" },
    analysis := { column_diagnostics := [diagAge, diagIncome, diagHeight] } }

/-- A recalibration response: accuracy 85, different diagnostics. -/
def respB : Response :=
  { stats := { accuracy := some 85, target_used := "age" },
    analysis := { column_diagnostics := [diagAge, diagIncome] } }

/-- The state after one successful upload of `data.csv` analysed as
`respA`: report present, columns `income`, `height`, target `age`. -/
def stReady : SessionState :=
  run [Op.upload (some "data.csv") (some respA) 5 "10:00"]

/-- `stReady` with a request in flight (`busy = true`). -/
def stBusy : SessionState := { stReady with loading := true }

/-! ### Evaluation lemmas for the insight arithmetic -/

theorem jsToFixed1_scenA : jsToFixed1 ((169/2 : ℚ) - 82) = { neg := false, tenths := 25 } := by
  norm_num [jsToFixed1]; rfl

theorem jsToFixed1_scenB : jsToFixed1 ((90 : ℚ) - 90) = { neg := false, tenths := 0 } := by
  norm_num [jsToFixed1]

theorem jsToFixed1_scenC : jsToFixed1 ((701/10 : ℚ) - 753/10) = { neg := true, tenths := 52 } := by
  norm_num [jsToFixed1]; rfl

theorem jsToFixed1_neg82 : jsToFixed1 ((0 : ℚ) - 82) = { neg := true, tenths := 820 } := by
  norm_num [jsToFixed1]; rfl

/-- Scenario A of the specification: 82.0 → 84.5 with 10 columns and 7
active features gives `+2.5%`, `OPTIMIZED`, a message pruning 3. -/
theorem refine_scenario_A :
    mkRefineEntry 82 (some (169/2)) 10 7 1 "10:00" =
      { id := 1, trend := "OPTIMIZED", diff := "+2.5%", timestamp := "10:00",
        message := optimizedMessage 3 } := by
  simp only [mkRefineEntry, jsToFixed1_scenA]
  norm_num [refineTrend, refineLabel, refineMessage, Fixed1.val, fixed1String]
  rfl

/-- Scenario B: 90.0 → 90.0 gives `0.0%`, `STABLE`. -/
theorem refine_scenario_B :
    mkRefineEntry 90 (some 90) 5 4 2 "t" =
      { id := 2, trend := "STABLE", diff := "0.0%", timestamp := "t",
        message := stableMessage } := by
  simp only [mkRefineEntry, jsToFixed1_scenB]
  norm_num [refineTrend, refineLabel, refineMessage, Fixed1.val, fixed1String]
  rfl

/-- Scenario C: 75.3 → 70.1 gives `-5.2%`, `DEGRADED`. -/
theorem refine_scenario_C :
    mkRefineEntry (753/10) (some (701/10)) 5 4 3 "t" =
      { id := 3, trend := "DEGRADED", diff := "-5.2%", timestamp := "t",
        message := degradedMessage } := by
  simp only [mkRefineEntry, jsToFixed1_scenC]
  norm_num [refineTrend, refineLabel, refineMessage, Fixed1.val, fixed1String]
  rfl

/-! ### C1 — single-flight discipline -/

/-- C1 counterexample: in the ready state with a request already in flight
(`busy = true`), a `handleRefine` call still reaches `axios.post` (the
returned flag is `true`) and the resulting state differs from the starting
one, so the call is neither rejected nor side-effect free. -/
theorem C1_counterexample :
    (handleRefineFailure stBusy).2 = true ∧ (handleRefineFailure stBusy).1 ≠ stBusy := by
  decide

/-- C1 (amended): `handleRefine` never consults the `busy` flag.  Its guard
is exactly `!file || !selectedTarget`: when that guard trips, the call
returns with no request and no state change (even while busy); when the
guard passes, the outbound request is issued regardless of `busy`. -/
theorem C1_guard_ignores_busy (st : SessionState) (resp : Response) (now : Nat) (ts : String) :
    (∀ b : Bool, refineRejected { st with loading := b } = refineRejected st) ∧
    (refineRejected st = true →
      handleRefineFailure st = (st, false) ∧
      handleRefineSuccess st resp now ts = (st, false)) ∧
    (refineRejected st = false →
      (handleRefineFailure st).2 = true ∧ (handleRefineSuccess st resp now ts).2 = true) := by
  refine ⟨fun b => rfl, fun h => ?_, fun h => ?_⟩
  · constructor
    · simp [handleRefineFailure, h]
    · simp [handleRefineSuccess, h]
  · constructor
    · simp [handleRefineFailure, h]
    · simp only [handleRefineSuccess, h, Bool.false_eq_true, if_false]
      cases st.report <;> simp

/-! ### C6 — recalibration failure preserves the session -/

/-- C6: a failed recalibration leaves `report`, `insightLog`, the selection
and the file exactly as they were; the session remains usable (either the
call was rejected outright, leaving the state untouched, or `busy` is
cleared by the `finally` block). -/
theorem C6_refine_failure_preserves (st : SessionState) :
    (handleRefineFailure st).1.report = st.report ∧
    (handleRefineFailure st).1.insights = st.insights ∧
    (handleRefineFailure st).1.selectedCols = st.selectedCols ∧
    (handleRefineFailure st).1.selectedTarget = st.selectedTarget ∧
    (handleRefineFailure st).1.file = st.file ∧
    ((handleRefineFailure st).1 = st ∨ (handleRefineFailure st).1.loading = false) := by
  unfold handleRefineFailure
  cases h : refineRejected st <;> simp

/-! ### C9 — changeTarget behaviour -/

/-- C9 counterexample: with no report present (the initial state),
`handleTargetChange` is not a no-op — it installs the new target anyway,
because the handler performs no report check. -/
theorem C9_counterexample :
    handleTargetChange initialState "age" ≠ initialState ∧
    (handleTargetChange initialState "age").selectedTarget = some "age" := by
  decide

/-- C9 (amended): for every identifier, `changeTarget` sets
`selectedTarget`, removes the identifier from `selectedColumns` and closes
any open auxiliary panel — unconditionally, whether or not a report is
present (the code has no report guard).  In particular after
`changeTarget "age"` the columns exclude `"age"` and the target is
`"age"`. -/
theorem C9_changeTarget_sets_and_prunes (st : SessionState) (t : String) :
    handleTargetChange st t =
      { st with selectedTarget := some t,
                selectedCols := st.selectedCols.filter (fun c => c ≠ t),
                openDropdown := none } ∧
    (handleTargetChange st t).selectedTarget = some t ∧
    t ∉ (handleTargetChange st t).selectedCols := by
  refine ⟨rfl, rfl, ?_⟩
  simp [handleTargetChange, List.mem_filter]

/-! ### C3 — the baseline log entry of the first upload -/

/-- C3 counterexample: after a concrete first successful upload the log
holds exactly one entry, but its `trend` field is `"STABLE"`, not the
`"INIT"` the claim requires (only `diff` carries the `"INIT"` sentinel). -/
theorem C3_counterexample :
    (run [Op.upload (some "data.csv") (some respA) 5 "10:00"]).insights.map
        (fun e => e.trend) = ["STABLE"] ∧
    ("STABLE" : String) ≠ "INIT" := by
  decide

/-- C3 (amended): after the first successful upload (no prior report) the
insight log contains exactly one entry, and that entry has
`trend = "STABLE"` and `diffLabel = "INIT"` — the code labels the baseline
entry with the `STABLE` trend; an `INIT` trend value never occurs. -/
theorem C3_first_upload_single_baseline (st : SessionState) (f : String)
    (resp : Response) (now : Nat) (ts : String) (_hEmpty : st.report = none) :
    (processFileSuccess st (some f) resp now ts).insights =
      [{ id := now, trend := "STABLE", diff := "INIT", timestamp := ts,
         message := baselineMessage }] := by
  rfl

/-- C3 witness: the amended claim at the concrete first upload. -/
theorem C3_witness :
    (processFileSuccess initialState (some "data.csv") respA 5 "10:00").insights =
      [{ id := 5, trend := "STABLE", diff := "INIT", timestamp := "10:00",
         message := baselineMessage }] :=
  C3_first_upload_single_baseline initialState "data.csv" respA 5 "10:00" rfl

/-! ### C7 — failure of the initial upload -/

/-- C7 counterexample: a failed initial upload does not return the session
to the Empty state — `setFile` runs before the request, so the file
reference is retained. -/
theorem C7_counterexample :
    processFileFailure initialState (some "data.csv") ≠ initialState ∧
    (processFileFailure initialState (some "data.csv")).file = some "data.csv" := by
  decide

/-- C7 (amended): when the initial analysis request fails, no report is
installed and the selection, log and open panel are unchanged from the
pre-upload Empty state, and `busy` is cleared — but the uploaded file
reference is retained (it was stored before the request was issued), so
the state is not the Empty state. -/
theorem C7_upload_failure_keeps_file (st : SessionState) (f : String)
    (h : st.report = none) :
    (processFileFailure st (some f)).file = some f ∧
    (processFileFailure st (some f)).report = none ∧
    (processFileFailure st (some f)).selectedCols = st.selectedCols ∧
    (processFileFailure st (some f)).selectedTarget = st.selectedTarget ∧
    (processFileFailure st (some f)).insights = st.insights ∧
    (processFileFailure st (some f)).openDropdown = st.openDropdown ∧
    (processFileFailure st (some f)).loading = false := by
  refine ⟨rfl, ?_, rfl, rfl, rfl, rfl, rfl⟩
  simpa [processFileFailure] using h

/-- C7 witness: the amended claim at a concrete failed first upload. -/
theorem C7_witness :
    (processFileFailure initialState (some "data.csv")).file = some "data.csv" ∧
    (processFileFailure initialState (some "data.csv")).report = none :=
  ⟨(C7_upload_failure_keeps_file initialState "data.csv" rfl).1,
   (C7_upload_failure_keeps_file initialState "data.csv" rfl).2.1⟩

/-! ### C4 — trend classification and label format -/

/-- C4: for finite accuracies, with `diff` the value of
`(newAccuracy - prevAccuracy).toFixed(1)` read back as a number, the
synthesized entry's trend is `OPTIMIZED` exactly when `diff > 0`,
`DEGRADED` exactly when `diff < 0` and `STABLE` exactly when `diff = 0`;
the label starts with an explicit `+` when `diff` is positive and always
ends with `%`. -/
theorem C4_trend_classification (prev newA : ℚ) (total active now : Nat) (ts : String) :
    ((mkRefineEntry prev (some newA) total active now ts).trend = "OPTIMIZED" ↔
        0 < (jsToFixed1 (newA - prev)).val) ∧
    ((mkRefineEntry prev (some newA) total active now ts).trend = "DEGRADED" ↔
        (jsToFixed1 (newA - prev)).val < 0) ∧
    ((mkRefineEntry prev (some newA) total active now ts).trend = "STABLE" ↔
        (jsToFixed1 (newA - prev)).val = 0) ∧
    (0 < (jsToFixed1 (newA - prev)).val →
        ∃ s, (mkRefineEntry prev (some newA) total active now ts).diff = "+" ++ s) ∧
    (∃ s, (mkRefineEntry prev (some newA) total active now ts).diff = s ++ "%") := by
  simp only [mkRefineEntry]
  rcases lt_trichotomy ((jsToFixed1 (newA - prev)).val) 0 with h | h | h
  · refine ⟨?_, ?_, ?_, ?_, ?_⟩
    · simp [refineTrend, h, not_lt.mpr h.le, lt_irrefl]
    · simp [refineTrend, h, not_lt.mpr h.le]
    · simp [refineTrend, h, not_lt.mpr h.le, h.ne]
    · intro hc
      exact absurd hc (by simp [not_lt.mpr h.le])
    · exact ⟨fixed1String (jsToFixed1 (newA - prev)),
        by simp [refineLabel, not_lt.mpr h.le]⟩
  · refine ⟨?_, ?_, ?_, ?_, ?_⟩
    · simp [refineTrend, h]
    · simp [refineTrend, h]
    · simp [refineTrend, h]
    · intro hc
      exact absurd hc (by simp [h])
    · exact ⟨fixed1String (jsToFixed1 (newA - prev)), by simp [refineLabel, h]⟩
  · refine ⟨?_, ?_, ?_, ?_, ?_⟩
    · simp [refineTrend, h]
    · simp [refineTrend, h, not_lt.mpr h.le]
    · simp [refineTrend, h, h.ne.symm]
    · intro _
      exact ⟨fixed1String (jsToFixed1 (newA - prev)) ++ "%",
        by simp [refineLabel, h, String.append_assoc]⟩
    · exact ⟨"+" ++ fixed1String (jsToFixed1 (newA - prev)),
        by simp [refineLabel, h, String.append_assoc]⟩

/-! ### C8 — totality and the NaN path of the insight computation -/

/-- C8 counterexample: with a previous accuracy of 82 present and the new
accuracy missing, the synthesized entry is `STABLE`/`"NaN%"`, while the
entry computed from a substituted zero would be `DEGRADED`/`"-82.0%"` —
zero is not substituted for a missing new accuracy. -/
theorem C8_counterexample :
    (mkRefineEntry 82 none 10 7 1 "t").trend = "STABLE" ∧
    (mkRefineEntry 82 none 10 7 1 "t").diff = "NaN%" ∧
    (mkRefineEntry 82 (some 0) 10 7 1 "t").trend = "DEGRADED" ∧
    (mkRefineEntry 82 (some 0) 10 7 1 "t").diff = "-82.0%" ∧
    ("STABLE" : String) ≠ "DEGRADED" ∧ ("NaN%" : String) ≠ "-82.0%" := by
  have h1 : mkRefineEntry 82 (some 0) 10 7 1 "t" =
      { id := 1, trend := "DEGRADED", diff := "-82.0%", timestamp := "t",
        message := degradedMessage } := by
    simp only [mkRefineEntry, jsToFixed1_neg82]
    norm_num [refineTrend, refineLabel, refineMessage, Fixed1.val, fixed1String]
    rfl
  refine ⟨rfl, rfl, ?_, ?_, by decide, by decide⟩
  · rw [h1]
  · rw [h1]

/-- C8 (amended): the insight computation never fails — every input
combination yields a well-formed entry whose trend is one of `OPTIMIZED`,
`DEGRADED`, `STABLE` and whose label ends in `%`.  Zero is substituted
only for a missing *previous* accuracy (absent report or absent accuracy
field); a missing *new* accuracy is not substituted: the `NaN` propagates,
giving trend `STABLE` and label `"NaN%"`. -/
theorem C8_engine_totality :
    (∀ st : SessionState, st.report = none → prevAccuracyOf st = 0) ∧
    (∀ (st : SessionState) (r : Response), st.report = some r →
      r.stats.accuracy = none → prevAccuracyOf st = 0) ∧
    (∀ (prev : ℚ) (total active now : Nat) (ts : String),
      (mkRefineEntry prev none total active now ts).trend = "STABLE" ∧
      (mkRefineEntry prev none total active now ts).diff = "NaN%") ∧
    (∀ (prev : ℚ) (newA : Option ℚ) (total active now : Nat) (ts : String),
      ((mkRefineEntry prev newA total active now ts).trend = "OPTIMIZED" ∨
       (mkRefineEntry prev newA total active now ts).trend = "DEGRADED" ∨
       (mkRefineEntry prev newA total active now ts).trend = "STABLE") ∧
      ∃ s, (mkRefineEntry prev newA total active now ts).diff = s ++ "%") := by
  refine ⟨?_, ?_, ?_, ?_⟩
  · intro st h
    simp [prevAccuracyOf, h]
  · intro st r h ha
    simp [prevAccuracyOf, h, ha]
  · intro prev total active now ts
    exact ⟨rfl, rfl⟩
  · intro prev newA total active now ts
    cases newA with
    | none => exact ⟨Or.inr (Or.inr rfl), "NaN", rfl⟩
    | some n =>
        constructor
        · simp only [mkRefineEntry, refineTrend]
          split
          · exact Or.inl rfl
          · split
            · exact Or.inr (Or.inl rfl)
            · exact Or.inr (Or.inr rfl)
        · simp only [mkRefineEntry, refineLabel]
          split
          · exact ⟨"+" ++ fixed1String (jsToFixed1 (n - prev)), by rw [String.append_assoc]⟩
          · exact ⟨fixed1String (jsToFixed1 (n - prev)), rfl⟩

/-! ### C5 — bounded log and eviction -/

/-- Selection and log helper: one transition step never grows the insight
log beyond five entries. -/
theorem step_insights_le (st : SessionState) (op : Op)
    (h : st.insights.length ≤ 5) : (step st op).insights.length ≤ 5 := by
  cases op with
  | upload f r now ts =>
      cases r with
      | none => cases f <;> simpa [step, processFileFailure] using h
      | some resp =>
          cases f with
          | none => simpa [step, processFileSuccess] using h
          | some fl => simp [step, processFileSuccess]
  | refine r now ts =>
      cases r with
      | none =>
          simp only [step, handleRefineFailure]
          split
          · exact h
          · exact h
      | some resp =>
          simp only [step, handleRefineSuccess]
          split
          · exact h
          · cases hr : st.report with
            | none => exact h
            | some r0 =>
                simp [List.length_take]
  | toggleCol c => exact h
  | changeTarget t => exact h
  | dropdown n => exact h

/-- C5: in every reachable state the insight log has length at most five,
and a successful recalibration (guard passed, report present) puts the new
entry at index 0 and keeps only the first four previous entries, evicting
the previous index-4 entry if there was one. -/
theorem C5_log_bounded_and_eviction :
    (∀ ops : List Op, (run ops).insights.length ≤ 5) ∧
    (∀ (st : SessionState) (resp : Response) (now : Nat) (ts : String) (r : Response),
      st.report = some r → refineRejected st = false →
      (handleRefineSuccess st resp now ts).1.insights =
        mkRefineEntry (prevAccuracyOf st) resp.stats.accuracy
          r.analysis.column_diagnostics.length st.selectedCols.length now ts ::
          st.insights.take 4) := by
  constructor
  · have key : ∀ (ops : List Op) (st : SessionState), st.insights.length ≤ 5 →
        (ops.foldl step st).insights.length ≤ 5 := by
      intro ops
      induction ops with
      | nil => intro st h; exact h
      | cons op rest ih => intro st h; exact ih _ (step_insights_le st op h)
    intro ops
    exact key ops initialState (by decide)
  · intro st resp now ts r hr hg
    simp only [handleRefineSuccess, hg, Bool.false_eq_true, if_false, hr]
    rfl

/-! ### C2 — the target/columns mutual-exclusion invariant -/

/-- C2 counterexample: from the initial state, a successful upload followed
by `toggleColumn "age"` — the identifier of the current target, which the
feature picker does offer — yields a reachable state whose selected
columns contain the target. -/
theorem C2_counterexample :
    targetOk (run [Op.upload (some "data.csv") (some respA) 5 "10:00",
      Op.toggleCol "age"]) = false := by
  decide

/-- Rewriting `targetOk` along equal selections. -/
theorem targetOk_eq_of_selection (st st' : SessionState)
    (h1 : st'.selectedTarget = st.selectedTarget)
    (h2 : st'.selectedCols = st.selectedCols) : targetOk st' = targetOk st := by
  unfold targetOk
  rw [h1, h2]

/-- Both refine paths leave the selection untouched. -/
theorem refine_preserves_selection (st : SessionState) (resp : Response)
    (now : Nat) (ts : String) :
    (handleRefineSuccess st resp now ts).1.selectedTarget = st.selectedTarget ∧
    (handleRefineSuccess st resp now ts).1.selectedCols = st.selectedCols ∧
    (handleRefineFailure st).1.selectedTarget = st.selectedTarget ∧
    (handleRefineFailure st).1.selectedCols = st.selectedCols := by
  cases hg : refineRejected st with
  | true => simp [handleRefineSuccess, handleRefineFailure, hg]
  | false =>
      cases hr : st.report <;>
        simp [handleRefineSuccess, handleRefineFailure, hg, hr]

/-- C2 (amended): the mutual-exclusion invariant `selectedTarget ∉
selectedColumns` holds initially and is preserved by every operation
*except* a `toggleColumn` call whose argument is the current target:
the code performs no target check in `toggleColumn`, so such a call adds
the target to the selected columns (see the counterexample). -/
theorem C2_invariant_except_toggle_of_target :
    targetOk initialState = true ∧
    ∀ (st : SessionState) (op : Op), targetOk st = true →
      (∀ c, op = Op.toggleCol c → st.selectedTarget ≠ some c) →
      targetOk (step st op) = true := by
  constructor
  · rfl
  intro st op h hg
  cases op with
  | upload f r now ts =>
      cases r with
      | none =>
          cases f with
          | none => exact h
          | some fl =>
              rw [targetOk_eq_of_selection st (step st (Op.upload (some fl) none now ts)) rfl rfl]
              exact h
      | some resp =>
          cases f with
          | none => exact h
          | some fl =>
              simp [step, processFileSuccess, targetOk, List.mem_filter]
  | refine r now ts =>
      cases r with
      | none =>
          rw [targetOk_eq_of_selection st (step st (Op.refine none now ts))
            (refine_preserves_selection st respA now ts).2.2.1
            (refine_preserves_selection st respA now ts).2.2.2]
          exact h
      | some resp =>
          rw [targetOk_eq_of_selection st (step st (Op.refine (some resp) now ts))
            (refine_preserves_selection st resp now ts).1
            (refine_preserves_selection st resp now ts).2.1]
          exact h
  | toggleCol c =>
      have hc : st.selectedTarget ≠ some c := hg c rfl
      unfold step toggleColumn
      unfold targetOk at h ⊢
      cases ht : st.selectedTarget with
      | none => simp
      | some t =>
          rw [ht] at h hc
          have htc : t ≠ c := fun e => hc (by rw [e])
          simp only [Bool.not_eq_true', decide_eq_false_iff_not] at h
          simp only [Bool.not_eq_true', decide_eq_false_iff_not]
          split
          · intro hmem
            exact h (List.mem_of_mem_filter hmem)
          · intro hmem
            rcases List.mem_append.mp hmem with hmem | hmem
            · exact h hmem
            · exact htc (List.mem_singleton.mp hmem)
  | changeTarget t =>
      simp [step, handleTargetChange, targetOk, List.mem_filter]
  | dropdown n =>
      rw [targetOk_eq_of_selection st (step st (Op.dropdown n)) rfl rfl]
      exact h

/-! ### C10 — counts come from the pre-recalibration report -/

/-- C10: the entry synthesized by a successful recalibration is built from
the previous report's `column_diagnostics` length and the current selected
column count (hence `prunedCount = totalColsCount - activeColsCount` over
those), not from the response: it sits at index 0 of the new log, and two
responses with the same `stats` — however their diagnostics differ —
produce identical logs. -/
theorem C10_counts_from_previous_report (st : SessionState)
    (resp resp2 : Response) (now : Nat) (ts : String) (r : Response)
    (hr : st.report = some r) (hg : refineRejected st = false) :
    (handleRefineSuccess st resp now ts).1.insights.head? =
      some (mkRefineEntry (prevAccuracyOf st) resp.stats.accuracy
        r.analysis.column_diagnostics.length st.selectedCols.length now ts) ∧
    (resp2.stats = resp.stats →
      (handleRefineSuccess st resp2 now ts).1.insights =
        (handleRefineSuccess st resp now ts).1.insights) := by
  constructor
  · simp only [handleRefineSuccess, hg, Bool.false_eq_true, if_false, hr]
    rfl
  · intro he
    simp only [handleRefineSuccess, hg, Bool.false_eq_true, if_false, hr, he]

/-- C10 witness: recalibrating the concrete ready state (three diagnostics
in the held report, two selected columns) with a response that has only
two diagnostics still builds the entry from the held report's three. -/
theorem C10_witness :
    (handleRefineSuccess stReady respB 7 "11:00").1.insights.head? =
      some (mkRefineEntry (prevAccuracyOf stReady) respB.stats.accuracy
        respA.analysis.column_diagnostics.length stReady.selectedCols.length 7 "11:00") :=
  (C10_counts_from_previous_report stReady respB respB 7 "11:00" respA rfl rfl).1
